import Mathlib

/-!
# Conversation & Message Synchronization Engine: a verification development

A shallow embedding of the conversation/message synchronization engine of the
ai-dm-saas repository, together with theorems settling the specification
claims about it.

The frontend pieces (API client, conversations API, message-list rendering,
polling hooks, list-item badge) are translated from the TypeScript sources.
The backend service (FastAPI) is not part of the sources, so the Message
Store, Conversation Aggregate, Read-State Reconciler and account scoping are
modelled from the specification text, as marked on each such definition.
-/

/-! ## Frontend HTTP layer (ApiClient, `src/lib/api.ts`) -/

/-- A JSON request body, modelled as the list of top-level (key, value)
fields of the object literal the client serializes. -/
inductive JsonBody where
  | obj (fields : List (String × String))
deriving DecidableEq

/-- Whether the serialized object carries a given top-level field. -/
def JsonBody.hasField : JsonBody → String → Bool
  | .obj fields, k => fields.any (fun p => p.1 == k)

/-- The HTTP request assembled by `ApiClient.request`: method, endpoint path
and optional JSON body (`body ? JSON.stringify(body) : undefined`). -/
structure ApiRequest where
  method : String
  path : String
  body : Option JsonBody
deriving DecidableEq

/-- `ApiClient.get`: a GET request with no body. -/
def ApiClient.get (endpoint : String) : ApiRequest :=
  { method := "GET", path := endpoint, body := none }

/-- `ApiClient.post`: a POST request carrying a JSON body. -/
def ApiClient.post (endpoint : String) (body : JsonBody) : ApiRequest :=
  { method := "POST", path := endpoint, body := some body }

/-- `ApiClient.patch`: a PATCH request carrying a JSON body. -/
def ApiClient.patch (endpoint : String) (body : JsonBody) : ApiRequest :=
  { method := "PATCH", path := endpoint, body := some body }

/-- An HTTP response as seen by `ApiClient.request`:
`ok` and `status` from the fetch response, `jsonDetail` the outcome of
`response.json()` (`none` when the body fails to parse, in which case the
code substitutes the empty object, whose `detail` member is undefined;
`some d` when it parses, `d` being its `detail` member when that is a
string), and `payload` the successfully parsed body returned on the ok
path. -/
structure HttpResponse where
  ok : Bool
  status : Nat
  jsonDetail : Option (Option String)
  payload : String
deriving DecidableEq

/-- JavaScript `a || b` specialised to the `error.detail || fallback`
expression: a missing value and the empty string are falsy. -/
def jsOrString (a : Option String) (b : String) : String :=
  match a with
  | some s => if s != "" then s else b
  | none => b

/-- The response handling of `ApiClient.request`: on `ok` resolve with the
parsed payload, otherwise throw an Error whose message is
`error.detail || "HTTP error! status: " ++ status` where `error` is the
parsed body or the empty object when parsing failed. -/
def ApiClient.handle (r : HttpResponse) : Except String String :=
  if r.ok then
    Except.ok r.payload
  else
    Except.error (jsOrString r.jsonDetail.join ("HTTP error! status: " ++ toString r.status))

/-! ## Conversations API (`src/lib/conversations-api.ts`) -/

/-- `getConversations(page = 1, pageSize = 20)`:
GET `/api/conversations?page=...&page_size=...`. -/
def getConversationsRequest (page : Nat := 1) (pageSize : Nat := 20) : ApiRequest :=
  ApiClient.get ("/api/conversations?page=" ++ toString page ++ "&page_size=" ++ toString pageSize)

/-- `getMessages(conversationId, page = 1, pageSize = 50)`:
GET `/api/conversations/.../messages?page=...&page_size=...`. -/
def getMessagesRequest (conversationId : String) (page : Nat := 1) (pageSize : Nat := 50) :
    ApiRequest :=
  ApiClient.get ("/api/conversations/" ++ conversationId ++ "/messages?page=" ++
    toString page ++ "&page_size=" ++ toString pageSize)

/-- `markConversationAsRead(conversationId)`:
POST `/api/conversations/.../read` with the empty object literal as body. -/
def markConversationAsReadRequest (conversationId : String) : ApiRequest :=
  ApiClient.post ("/api/conversations/" ++ conversationId ++ "/read") (JsonBody.obj [])

/-- `updateConversationStatus(conversationId, status)`:
PATCH `/api/conversations/.../status` with the one-field body. -/
def updateConversationStatusRequest (conversationId : String) (statusValue : String) :
    ApiRequest :=
  ApiClient.patch ("/api/conversations/" ++ conversationId ++ "/status")
    (JsonBody.obj [("status", statusValue)])

/-- The pagination metadata carried by every paginated response
(`PaginationMeta` in `src/types/conversation.ts`): exactly the five fields
total, page, page_size, has_next, has_previous. -/
structure PaginationMeta where
  total : Nat
  page : Nat
  page_size : Nat
  has_next : Bool
  has_previous : Bool
deriving DecidableEq

/-! ## Theorems: C1, C7, C9 -/

/-- Claim C1, counterexample: at the concrete conversation id `c1`, the body
of the mark-read request issued by `markConversationAsRead` is the empty
JSON object — it does not carry an `as_of` cursor, contrary to the claim
that the request body carries the fetch-time cursor rather than being
empty. -/
theorem c1_counterexample :
    (markConversationAsReadRequest "c1").body = some (JsonBody.obj []) ∧
    JsonBody.hasField (JsonBody.obj []) "as_of" = false := by
  constructor
  · rfl
  · rfl

/-- Claim C1 (amended): for every conversation id, the mark-read request is a
POST to `/api/conversations/.../read` whose body is the empty JSON object;
no `as_of` cursor is ever included, so the server falls back to the latest
ordering key it knows at transaction start. -/
theorem c1_markRead_request_empty_body (conversationId : String) :
    (markConversationAsReadRequest conversationId).method = "POST" ∧
    (markConversationAsReadRequest conversationId).path =
      "/api/conversations/" ++ conversationId ++ "/read" ∧
    (markConversationAsReadRequest conversationId).body = some (JsonBody.obj []) ∧
    ∀ b, (markConversationAsReadRequest conversationId).body = some b →
      b.hasField "as_of" = false := by
  refine ⟨rfl, rfl, rfl, ?_⟩
  intro b hb
  cases hb
  rfl

/-- Claim C7: with pagination parameters omitted, the conversation-list query
uses page 1 with page size 20 and the message-list query uses page 1 with
page size 50; and the pagination metadata consists of exactly the fields
total, page, page_size, has_next, has_previous (two metadata values agreeing
on those five fields are equal). -/
theorem c7_pagination_defaults :
    (getConversationsRequest : ApiRequest) =
      ApiClient.get "/api/conversations?page=1&page_size=20" ∧
    (∀ cid : String, (getMessagesRequest cid : ApiRequest) =
      ApiClient.get ("/api/conversations/" ++ cid ++ "/messages?page=" ++ "1" ++
        "&page_size=" ++ "50")) ∧
    (∀ m1 m2 : PaginationMeta, m1.total = m2.total → m1.page = m2.page →
      m1.page_size = m2.page_size → m1.has_next = m2.has_next →
      m1.has_previous = m2.has_previous → m1 = m2) := by
  refine ⟨rfl, fun cid => rfl, ?_⟩
  intro m1 m2 h1 h2 h3 h4 h5
  cases m1
  cases m2
  simp_all

/-- Claim C7, witness: the defaults and the field-determinacy of the metadata
at concrete values. -/
theorem c7_witness :
    (getMessagesRequest "c1" : ApiRequest) =
      ApiClient.get ("/api/conversations/" ++ "c1" ++ "/messages?page=" ++ "1" ++
        "&page_size=" ++ "50") ∧
    (PaginationMeta.mk 7 1 20 true false) = (PaginationMeta.mk 7 1 20 true false) :=
  ⟨c7_pagination_defaults.2.1 "c1",
   c7_pagination_defaults.2.2 _ _ rfl rfl rfl rfl rfl⟩

/-- Claim C9: whenever the response has `ok = false`, `ApiClient.request`
throws (the handler yields an error, never a success value); the error
message is the detail field of the parsed body when the body parses as JSON
with a truthy (non-empty) detail, and otherwise the string
`HTTP error! status: ` followed by the status code. -/
theorem c9_request_error_handling (r : HttpResponse) (h : r.ok = false) :
    ApiClient.handle r =
      Except.error
        (match r.jsonDetail.join with
         | some d => if d != "" then d else "HTTP error! status: " ++ toString r.status
         | none => "HTTP error! status: " ++ toString r.status) := by
  unfold ApiClient.handle jsOrString
  rw [h]
  rfl

/-- Claim C9, witness: a concrete failed response with a truthy detail
yields exactly that detail as the error. -/
theorem c9_witness :
    ApiClient.handle (HttpResponse.mk false 404 (some (some "Conversation not found")) "") =
      Except.error "Conversation not found" := by
  have h := c9_request_error_handling
    (HttpResponse.mk false 404 (some (some "Conversation not found")) "") rfl
  simpa using h

/-! ## Message thread rendering (`MessageList.tsx`)

The component computes
`const sortedMessages = [...messages].sort((a, b) => dateA.getTime() - dateB.getTime())`
with `dateA = new Date(a.instagram_timestamp || a.created_at)`.
Timestamps are modelled as the integers `Date.getTime()` yields; an absent
channel timestamp (null) is the fallback case of the `||`. ECMAScript
`Array.prototype.sort` is stable, so the sort is modelled by the stable
`List.mergeSort` on the same ascending comparison. -/

/-- A message as the frontend renders it: the fields the comparator reads,
plus the id used as React key. -/
structure FMessage where
  id : String
  instagram_timestamp : Option Int
  created_at : Int
deriving DecidableEq

/-- `new Date(m.instagram_timestamp || m.created_at).getTime()`: the
effective display timestamp, falling back to created_at when the channel
timestamp is absent. -/
def effTime (m : FMessage) : Int :=
  match m.instagram_timestamp with
  | some t => t
  | none => m.created_at

/-- The Boolean form of the comparator of MessageList:
`cmp a b ≤ 0`, i.e. the effective timestamp of a is at most that of b. -/
def effLe (a b : FMessage) : Bool :=
  decide (effTime a ≤ effTime b)

/-- The display order MessageList produces: the stable ascending sort of a
copy of the input by the effective timestamp. -/
def sortedMessages (messages : List FMessage) : List FMessage :=
  messages.mergeSort effLe

/-- The ordering relation the spec claims for display, written from the
words of the spec for comparison with the code: primarily the channel
timestamp falling back to created_at, with created_at and then id as a
total tie-break (strict version). -/
def specOrderingLt (a b : FMessage) : Prop :=
  effTime a < effTime b ∨
    (effTime a = effTime b ∧
      (a.created_at < b.created_at ∨ (a.created_at = b.created_at ∧ a.id < b.id)))

instance (a b : FMessage) : Decidable (specOrderingLt a b) := by
  unfold specOrderingLt
  exact inferInstance

theorem effLe_trans : ∀ a b c : FMessage, effLe a b → effLe b c → effLe a c := by
  intro a b c hab hbc
  simp only [effLe, decide_eq_true_eq] at *
  exact le_trans hab hbc

theorem effLe_total : ∀ a b : FMessage, effLe a b || effLe b a := by
  intro a b
  simp only [effLe]
  rcases le_total (effTime a) (effTime b) with h | h <;> simp [h]

/-- Claim C3, counterexample: two messages with the same effective timestamp
but distinct created_at (hence distinct under the claimed ordering key) are
displayed in input order: the first precedes the second although the claimed
ordering places the second strictly first. -/
theorem c3_counterexample :
    sortedMessages [FMessage.mk "m1" (some 50) 200, FMessage.mk "m2" (some 50) 100] =
      [FMessage.mk "m1" (some 50) 200, FMessage.mk "m2" (some 50) 100] ∧
    ¬ specOrderingLt (FMessage.mk "m1" (some 50) 200) (FMessage.mk "m2" (some 50) 100) ∧
    specOrderingLt (FMessage.mk "m2" (some 50) 100) (FMessage.mk "m1" (some 50) 200) := by
  refine ⟨?_, by decide, by decide⟩
  apply List.mergeSort_of_sorted
  decide

/-- Claim C3 (amended): the display order is the input sorted in
non-decreasing order of the effective timestamp (channel timestamp falling
back to created_at); it is a permutation of the input, and messages whose
effective timestamps are equal keep their relative input order (the sort is
stable) — there is no created_at or id tie-break, so the relative order of
equal-timestamp messages is determined by input position, not by the claimed
ordering key. -/
theorem c3_display_order (messages : List FMessage) :
    (sortedMessages messages).Perm messages ∧
    (sortedMessages messages).Pairwise (fun a b => effTime a ≤ effTime b) ∧
    ∀ t : Int, (sortedMessages messages).filter (fun m => effTime m == t) =
      messages.filter (fun m => effTime m == t) := by
  refine ⟨List.mergeSort_perm messages effLe, ?_, ?_⟩
  · exact (List.sorted_mergeSort effLe_trans effLe_total messages).imp
      (fun hab => by simpa [effLe] using hab)
  · intro t
    have hmem : ∀ a ∈ messages.filter (fun m => effTime m == t), effTime a = t := by
      intro a ha
      have := (List.mem_filter.mp ha).2
      simpa using this
    have hc : (messages.filter (fun m => effTime m == t)).Pairwise
        (fun a b => effLe a b = true) := by
      apply List.pairwise_of_forall_mem_list
      intro a ha b hb
      simp only [effLe, decide_eq_true_eq, hmem a ha, hmem b hb, le_refl]
    have h1 : List.Sublist (messages.filter (fun m => effTime m == t)) (sortedMessages messages) :=
      List.sublist_mergeSort effLe_trans effLe_total hc (List.filter_sublist messages)
    have h2 : List.Perm ((sortedMessages messages).filter (fun m => effTime m == t))
        (messages.filter (fun m => effTime m == t)) :=
      List.Perm.filter _ (List.mergeSort_perm messages effLe)
    have h3 : (messages.filter (fun m => effTime m == t)).filter (fun m => effTime m == t) =
        messages.filter (fun m => effTime m == t) := by
      simp
    have h4 : List.Sublist (messages.filter (fun m => effTime m == t))
        ((sortedMessages messages).filter (fun m => effTime m == t)) := by
      have := h1.filter (fun m => effTime m == t)
      rwa [h3] at this
    exact (h4.eq_of_length h2.length_eq.symm).symm

/-! ## JS array mutation model for the rendering step

ECMAScript `Array.prototype.sort` mutates the receiver in place, while the
spread `[...a]` allocates a fresh array with the same elements. To state
that MessageList leaves the props array untouched, arrays are modelled as
references into a heap. -/

/-- A heap of JS arrays of messages: `next` is the first unallocated
reference, `store` maps references to contents. -/
structure ArrayHeap where
  next : Nat
  store : Nat → List FMessage

/-- Reading the contents of an array reference. -/
def ArrayHeap.read (h : ArrayHeap) (r : Nat) : List FMessage :=
  h.store r

/-- Overwriting the contents of an array reference. -/
def ArrayHeap.write (h : ArrayHeap) (r : Nat) (v : List FMessage) : ArrayHeap :=
  { h with store := fun r2 => if r2 = r then v else h.store r2 }

/-- `[...a]`: allocate a fresh array holding the same elements; returns the
new reference and the heap after allocation. -/
def ArrayHeap.spread (h : ArrayHeap) (r : Nat) : Nat × ArrayHeap :=
  (h.next,
   { next := h.next + 1,
     store := fun r2 => if r2 = h.next then h.read r else h.store r2 })

/-- `a.sort(cmp)`: sort the array in place. -/
def ArrayHeap.sortInPlace (h : ArrayHeap) (r : Nat) : ArrayHeap :=
  h.write r (sortedMessages (h.read r))

/-- The sorting step of MessageList:
`const sortedMessages = [...messages].sort(cmp)` — spread-copy the props
array, then sort the copy in place. Returns the reference rendered from and
the heap afterwards. -/
def messageListRender (h : ArrayHeap) (messages : Nat) : Nat × ArrayHeap :=
  let copy := (h.spread messages).1
  let h2 := (h.spread messages).2
  (copy, h2.sortInPlace copy)

/-- Claim C10: rendering the thread never mutates its input. MessageList
sorts a spread copy of the props array, so for every allocated input array
the contents of the caller's array after the render equal its contents
before, while the rendered copy holds the sorted elements. -/
theorem c10_render_does_not_mutate_input (h : ArrayHeap) (r : Nat) (hr : r < h.next) :
    (messageListRender h r).2.read r = h.read r ∧
    (messageListRender h r).2.read (messageListRender h r).1 = sortedMessages (h.read r) := by
  have hne : r ≠ h.next := Nat.ne_of_lt hr
  constructor
  · simp [messageListRender, ArrayHeap.sortInPlace, ArrayHeap.write, ArrayHeap.spread,
      ArrayHeap.read, hne]
  · simp [messageListRender, ArrayHeap.sortInPlace, ArrayHeap.write, ArrayHeap.spread,
      ArrayHeap.read]

/-- Claim C10, witness: the no-mutation property at a concrete one-array
heap. -/
theorem c10_witness :
    0 < (ArrayHeap.mk 1 (fun _ => [FMessage.mk "a" none 0])).next ∧
    (messageListRender (ArrayHeap.mk 1 (fun _ => [FMessage.mk "a" none 0])) 0).2.read 0 =
      (ArrayHeap.mk 1 (fun _ => [FMessage.mk "a" none 0])).read 0 :=
  ⟨Nat.zero_lt_one,
   (c10_render_does_not_mutate_input (ArrayHeap.mk 1 (fun _ => [FMessage.mk "a" none 0])) 0
      Nat.zero_lt_one).1⟩

/-! ## Auto mark-as-read of `useMessages` (`src/hooks/useMessages.ts`)

The hook keeps a `hasMarkedAsRead` ref. A first effect (declared first, so
run first) fires the mark-as-read mutation when auto-marking is enabled, a
conversation is selected, the fetched items are non-empty and the flag is
unset, setting the flag; a second effect resets the flag when the selected
conversation changes (its only dependency). Modelling note: React skips an
effect whose dependencies are unchanged; for the first effect such a
skipped run is indistinguishable from an executed one, because between two
renders with identical dependencies and an unchanged conversation the flag
can only have moved from unset to set, never back, so the guard evaluates
the same. The second effect runs exactly when the conversation changed,
which the model tests explicitly. -/

/-- The state useMessages carries across renders: the `hasMarkedAsRead` ref
and the previously rendered conversation id (the dependency the reset
effect compares against). -/
structure UseMessagesState where
  hasMarkedAsRead : Bool
  conversationId : Option String
deriving DecidableEq

/-- What one render of useMessages observes: the selected conversation, the
length of `data.items` of the message query, and the `autoMarkAsRead`
option. -/
structure RenderObservation where
  conversationId : Option String
  itemsLength : Nat
  autoMarkAsRead : Bool
deriving DecidableEq

/-- One render of useMessages: effect order is the declaration order — the
auto-mark effect, then the reset effect. Returns the next state and whether
the mark-as-read mutation fired. -/
def useMessagesRender (s : UseMessagesState) (i : RenderObservation) :
    UseMessagesState × Bool :=
  let fired := i.autoMarkAsRead && i.conversationId.isSome &&
    decide (0 < i.itemsLength) && !s.hasMarkedAsRead
  let flagAfterMark := s.hasMarkedAsRead || fired
  let flagAfterReset := if i.conversationId = s.conversationId then flagAfterMark else false
  ({ hasMarkedAsRead := flagAfterReset, conversationId := i.conversationId }, fired)

/-- The number of mark-as-read mutation calls over a sequence of renders. -/
def useMessagesFireCount (s : UseMessagesState) : List RenderObservation → Nat
  | [] => 0
  | i :: rest =>
    (if (useMessagesRender s i).2 then 1 else 0) +
      useMessagesFireCount (useMessagesRender s i).1 rest

theorem useMessagesRender_keeps_conv (s : UseMessagesState) (i : RenderObservation) :
    (useMessagesRender s i).1.conversationId = i.conversationId := rfl

theorem useMessagesFireCount_of_marked (c : String) :
    ∀ (inputs : List RenderObservation) (s : UseMessagesState),
      s.conversationId = some c → s.hasMarkedAsRead = true →
      (∀ i ∈ inputs, i.conversationId = some c) →
      useMessagesFireCount s inputs = 0 := by
  intro inputs
  induction inputs with
  | nil => intro s _ _ _; rfl
  | cons i rest ih =>
    intro s hs hmarked hin
    have hic : i.conversationId = some c := hin i (List.mem_cons_self i rest)
    have hsame : i.conversationId = s.conversationId := by rw [hic, hs]
    have hfired : (useMessagesRender s i).2 = false := by
      simp [useMessagesRender, hmarked]
    have hstate : (useMessagesRender s i).1.hasMarkedAsRead = true := by
      simp [useMessagesRender, hsame, hmarked]
    have hrest : useMessagesFireCount (useMessagesRender s i).1 rest = 0 := by
      apply ih
      · rw [useMessagesRender_keeps_conv, hic]
      · exact hstate
      · intro j hj; exact hin j (List.mem_cons_of_mem i hj)
    simp [useMessagesFireCount, hfired, hrest]

/-- Claim C6: polling reads are side-effect-free (the message-list poll is a
GET with no body), and for a fixed selected conversation any number of
successive refetch renders fire the mark-as-read mutation at most once;
the flag is re-armed (reset to unset) only when the selected conversation
changes. -/
theorem c6_mark_read_at_most_once (c : String) (s : UseMessagesState)
    (inputs : List RenderObservation)
    (hs : s.conversationId = some c)
    (hin : ∀ i ∈ inputs, i.conversationId = some c) :
    useMessagesFireCount s inputs ≤ 1 ∧
    (getMessagesRequest c).method = "GET" ∧
    (getMessagesRequest c).body = none ∧
    (∀ (s2 : UseMessagesState) (i : RenderObservation),
      (useMessagesRender s2 i).1.hasMarkedAsRead = false →
      s2.hasMarkedAsRead = true →
      i.conversationId ≠ s2.conversationId) := by
  refine ⟨?_, rfl, rfl, ?_⟩
  · induction inputs generalizing s with
    | nil => exact Nat.zero_le 1
    | cons i rest ih =>
      have hic : i.conversationId = some c := hin i (List.mem_cons_self i rest)
      have hin2 : ∀ j ∈ rest, j.conversationId = some c :=
        fun j hj => hin j (List.mem_cons_of_mem i hj)
      have hconv : (useMessagesRender s i).1.conversationId = some c := by
        rw [useMessagesRender_keeps_conv, hic]
      by_cases hf : (useMessagesRender s i).2 = true
      · have hflag : (useMessagesRender s i).1.hasMarkedAsRead = true := by
          have hsame : i.conversationId = s.conversationId := by rw [hic, hs]
          simp only [useMessagesRender] at hf ⊢
          simp only [Bool.and_eq_true, decide_eq_true_eq, Bool.not_eq_true'] at hf
          rcases hf with ⟨⟨⟨h1, h2⟩, h3⟩, h4⟩
          simp [hsame, h1, h3, h4]
          rwa [← hsame]
        have hrest := useMessagesFireCount_of_marked c rest
          (useMessagesRender s i).1 hconv hflag hin2
        simp [useMessagesFireCount, hf, hrest]
      · have hf2 : (useMessagesRender s i).2 = false := by
          simpa using hf
        have hrest := ih (useMessagesRender s i).1 hconv hin2
        simp only [useMessagesFireCount, hf2, if_false]
        simpa using hrest
  · intro s2 i hafter hbefore
    intro heq
    simp [useMessagesRender, heq, hbefore] at hafter

/-- Claim C6, witness: two successive refetch renders of one selected
conversation with loaded items fire the mutation exactly once, hence at
most once. -/
theorem c6_witness :
    useMessagesFireCount (UseMessagesState.mk false (some "c1"))
      [RenderObservation.mk (some "c1") 3 true, RenderObservation.mk (some "c1") 3 true] ≤ 1 :=
  (c6_mark_read_at_most_once "c1" (UseMessagesState.mk false (some "c1"))
    [RenderObservation.mk (some "c1") 3 true, RenderObservation.mk (some "c1") 3 true]
    rfl (by intro i hi; fin_cases hi <;> rfl)).1

/-! ## Server-side engine, modelled from the specification

The FastAPI backend is not among the sources (only its conventions document
and the frontend callers are), so the Message Store, Conversation Aggregate,
Read-State Reconciler and account scoping below are modelled from the
specification text, per definition as marked. Ordering keys are modelled as
one integer (channel timestamp falling back to created_at). -/

/-- Modelled from the spec: the direction of a stored message (§3). -/
inductive Direction where
  | inbound
  | outbound
deriving DecidableEq

/-- Modelled from the spec: the operator-controlled conversation status
(§3). -/
inductive ConversationStatus where
  | active
  | archived
  | closed
deriving DecidableEq

/-- Modelled from the spec: a stored Message row (§3); immutable once
appended. `key` is its ordering key. -/
structure SMessage where
  id : Nat
  external_message_id : Option String
  direction : Direction
  content : String
  key : Int
deriving DecidableEq

/-- Modelled from the spec: the Conversation aggregate row (§3), holding the
derived unread_count and last-message denormalizations together with the
message store of the conversation. unread_count is an integer column, so
non-negativity is an invariant to prove, not a typing fact. -/
structure SConversation where
  id : Nat
  account_id : Nat
  status : ConversationStatus
  unread_count : Int
  last_message_key : Option Int
  last_message_preview : Option String
  messages : List SMessage
deriving DecidableEq

/-- Modelled from the spec: the fields of an inbound/outbound message event
(§4.1: all Message fields except id and created_at). -/
structure MessageInput where
  external_message_id : Option String
  direction : Direction
  content : String
  key : Int
deriving DecidableEq

/-- Modelled from the spec: the latest message ordering key known at
transaction start (§4.3). -/
def latestKey (msgs : List SMessage) : Option Int :=
  msgs.foldl
    (fun acc m =>
      match acc with
      | none => some m.key
      | some k => some (max k m.key))
    none

/-- Modelled from the spec: the Read-State Reconciler (§4.3). With no
messages, unread_count becomes 0 unconditionally; otherwise unread_count is
recomputed as the number of inbound messages with ordering key strictly
greater than the supplied cursor, defaulting to the latest key at
transaction start. -/
def markRead (conv : SConversation) (cursor : Option Int) : SConversation :=
  if conv.messages.isEmpty then
    { conv with unread_count := 0 }
  else
    let boundary :=
      match cursor with
      | some k => k
      | none => (latestKey conv.messages).getD 0
    { conv with
      unread_count :=
        ((conv.messages.filter
            (fun m => (m.direction == Direction.inbound) && decide (boundary < m.key))).length
          : Int) }

/-- Modelled from the spec: the idempotency test of the Message Store
(§4.1) — does some stored message carry this external id. -/
def hasExternalId (msgs : List SMessage) (eid : String) : Bool :=
  msgs.any (fun m => m.external_message_id == some eid)

/-- Modelled from the spec: the non-deduplicating part of `applyMessage`
(§4.2): append the message, raise the last-message denormalizations
monotonically, and count an inbound message as unread. -/
def appendMessage (conv : SConversation) (input : MessageInput) (newId : Nat) : SConversation :=
  { conv with
    messages := conv.messages ++
      [SMessage.mk newId input.external_message_id input.direction input.content input.key],
    last_message_key :=
      match conv.last_message_key with
      | none => some input.key
      | some k => if k ≤ input.key then some input.key else some k,
    last_message_preview :=
      match conv.last_message_key with
      | none => some input.content
      | some k => if k ≤ input.key then some input.content else conv.last_message_preview,
    unread_count :=
      if input.direction == Direction.inbound then conv.unread_count + 1
      else conv.unread_count }

/-- Modelled from the spec: `applyMessage` (§4.1 + §4.2) — when the input
carries an external_message_id already stored for this conversation, the
whole transaction is a no-op returning the existing state; otherwise the
message is appended and the aggregate updated. -/
def applyMessage (conv : SConversation) (input : MessageInput) (newId : Nat) : SConversation :=
  match input.external_message_id with
  | some eid =>
    if hasExternalId conv.messages eid then conv else appendMessage conv input newId
  | none => appendMessage conv input newId

/-- Modelled from the spec: one engine operation on a conversation (§5). -/
inductive ConvOp where
  | message (input : MessageInput) (newId : Nat)
  | read (cursor : Option Int)
  | setStatus (st : ConversationStatus)
deriving DecidableEq

/-- Running one operation against a conversation. -/
def runOp (conv : SConversation) : ConvOp → SConversation
  | ConvOp.message input newId => applyMessage conv input newId
  | ConvOp.read cursor => markRead conv cursor
  | ConvOp.setStatus st => { conv with status := st }

/-- Running a sequence of operations. -/
def runOps (conv : SConversation) (ops : List ConvOp) : SConversation :=
  ops.foldl runOp conv

/-- The unread badge of ConversationListItem
(`src/components/conversations/ConversationListItem.tsx`): rendered only
when `unread_count > 0`, capping the label at `99+`. -/
def unreadBadge (unread : Int) : Option String :=
  if 0 < unread then some (if 99 < unread then "99+" else toString unread) else none

/-! ## Theorems: C2, C4, C5 -/

/-- Claim C2: markRead sets unread_count to the recomputed count of inbound
messages whose ordering key is strictly greater than the supplied cursor
(defaulting to the latest key known at transaction start), never blindly to
0; with no messages, unread_count becomes 0 unconditionally. -/
theorem c2_markRead_recomputes (conv : SConversation) (cursor : Option Int) :
    (markRead conv cursor).unread_count =
      if conv.messages.isEmpty then 0
      else
        ((conv.messages.countP
            (fun m => (m.direction == Direction.inbound) &&
              decide (cursor.getD ((latestKey conv.messages).getD 0) < m.key))) : Int) := by
  unfold markRead
  by_cases h : conv.messages.isEmpty
  · simp [h]
  · simp only [h, if_false]
    rw [List.countP_eq_length_filter]
    cases cursor <;> rfl

/-- Claim C4: an append whose input carries an already-stored
external_message_id is a no-op, so applying the same event twice appends
exactly one message (none when the id was already stored beforehand) and
increments unread_count at most once: the second application leaves the
state exactly as after the first. -/
theorem c4_applyMessage_idempotent (conv : SConversation) (input : MessageInput)
    (eid : String) (id1 id2 : Nat) (h : input.external_message_id = some eid) :
    applyMessage (applyMessage conv input id1) input id2 = applyMessage conv input id1 ∧
    (applyMessage conv input id1).messages.length ≤ conv.messages.length + 1 ∧
    (hasExternalId conv.messages eid = false →
      (applyMessage conv input id1).messages.length = conv.messages.length + 1) ∧
    (applyMessage conv input id1).unread_count ≤ conv.unread_count + 1 := by
  have happ : ∀ idx : Nat, applyMessage conv input idx =
      if hasExternalId conv.messages eid then conv else appendMessage conv input idx := by
    intro idx
    unfold applyMessage
    rw [h]
  by_cases hdup : hasExternalId conv.messages eid
  · have h1 : applyMessage conv input id1 = conv := by rw [happ, if_pos hdup]
    refine ⟨?_, ?_, ?_, ?_⟩
    · rw [h1, happ, if_pos hdup]
    · rw [h1]; omega
    · intro hfalse; rw [hdup] at hfalse; cases hfalse
    · rw [h1]; omega
  · have h1 : applyMessage conv input id1 = appendMessage conv input id1 := by
      rw [happ, if_neg hdup]
    have hlen : (appendMessage conv input id1).messages.length =
        conv.messages.length + 1 := by
      simp [appendMessage]
    have hhas : hasExternalId (appendMessage conv input id1).messages eid = true := by
      simp [appendMessage, hasExternalId, List.any_append, h]
    refine ⟨?_, ?_, ?_, ?_⟩
    · rw [h1]
      unfold applyMessage
      rw [h]
      simp [hhas]
    · rw [h1, hlen]
    · intro _; rw [h1, hlen]
    · rw [h1]
      unfold appendMessage
      by_cases hd : (input.direction == Direction.inbound) = true <;> simp [hd]

/-- Claim C4, witness: redelivering a concrete inbound event with a stored
external id is a no-op on a concrete conversation. -/
theorem c4_witness :
    applyMessage
        (applyMessage (SConversation.mk 1 10 ConversationStatus.active 0 none none [])
          (MessageInput.mk (some "ig-1") Direction.inbound "Hi" 5) 100)
        (MessageInput.mk (some "ig-1") Direction.inbound "Hi" 5) 101 =
      applyMessage (SConversation.mk 1 10 ConversationStatus.active 0 none none [])
        (MessageInput.mk (some "ig-1") Direction.inbound "Hi" 5) 100 :=
  (c4_applyMessage_idempotent (SConversation.mk 1 10 ConversationStatus.active 0 none none [])
    (MessageInput.mk (some "ig-1") Direction.inbound "Hi" 5) "ig-1" 100 101 rfl).1

theorem runOp_unread_nonneg (conv : SConversation) (op : ConvOp)
    (h : 0 ≤ conv.unread_count) : 0 ≤ (runOp conv op).unread_count := by
  cases op with
  | message input newId =>
    have hap : 0 ≤ (appendMessage conv input newId).unread_count := by
      unfold appendMessage
      by_cases hd : (input.direction == Direction.inbound) = true <;> simp [hd] <;> omega
    show 0 ≤ (applyMessage conv input newId).unread_count
    have hcases : applyMessage conv input newId = conv ∨
        applyMessage conv input newId = appendMessage conv input newId := by
      unfold applyMessage
      cases hext : input.external_message_id with
      | none => right; rfl
      | some eid =>
        by_cases hdup : hasExternalId conv.messages eid
        · left; simp [hdup]
        · right; simp [hdup]
    rcases hcases with he | he <;> rw [he]
    · exact h
    · exact hap
  | read cursor =>
    show 0 ≤ (markRead conv cursor).unread_count
    unfold markRead
    by_cases hemp : conv.messages.isEmpty <;> simp [hemp]
  | setStatus st => exact h

theorem runOps_unread_nonneg : ∀ (ops : List ConvOp) (conv : SConversation),
    0 ≤ conv.unread_count → 0 ≤ (runOps conv ops).unread_count := by
  intro ops
  induction ops with
  | nil => intro conv h; exact h
  | cons op rest ih =>
    intro conv h
    have hstep := runOp_unread_nonneg conv op h
    simpa [runOps, List.foldl_cons] using ih (runOp conv op) hstep

/-- Claim C5: starting from a conversation with non-negative unread_count
(as created: 0), any sequence of message appends, mark-read calls and
status updates leaves unread_count non-negative; and the conversation list
item never displays a negative count — the badge is rendered only for
strictly positive values. -/
theorem c5_unread_count_nonneg (conv : SConversation) (ops : List ConvOp)
    (h : 0 ≤ conv.unread_count) :
    0 ≤ (runOps conv ops).unread_count ∧
    (∀ u : Int, u < 0 → unreadBadge u = none) := by
  refine ⟨runOps_unread_nonneg ops conv h, ?_⟩
  intro u hu
  unfold unreadBadge
  rw [if_neg (by omega)]

/-- Claim C5, witness: a concrete run — inbound append, mark read, inbound
append, status update — keeps unread_count non-negative. -/
theorem c5_witness :
    0 ≤ (runOps (SConversation.mk 1 10 ConversationStatus.active 0 none none [])
        [ConvOp.message (MessageInput.mk (some "a") Direction.inbound "Hi" 1) 100,
         ConvOp.read none,
         ConvOp.message (MessageInput.mk (some "b") Direction.inbound "More" 2) 101,
         ConvOp.setStatus ConversationStatus.archived]).unread_count ∧
    unreadBadge (-3) = none :=
  ⟨(c5_unread_count_nonneg (SConversation.mk 1 10 ConversationStatus.active 0 none none [])
      [ConvOp.message (MessageInput.mk (some "a") Direction.inbound "Hi" 1) 100,
       ConvOp.read none,
       ConvOp.message (MessageInput.mk (some "b") Direction.inbound "More" 2) 101,
       ConvOp.setStatus ConversationStatus.archived] (le_refl 0)).1,
   (c5_unread_count_nonneg (SConversation.mk 1 10 ConversationStatus.active 0 none none [])
      [] (le_refl 0)).2 (-3) (by omega)⟩

/-! ## Account scoping of the query surface (C8) -/

/-- Modelled from the spec: the error taxonomy of §7 relevant to scoping —
a permission-denied kind exists in the taxonomy, so returning not-found
rather than it is an observable choice. -/
inductive ApiError where
  | notFound
  | permissionDenied
  | validationError
deriving DecidableEq

/-- Looking a conversation up by id, ignoring ownership. -/
def findConversation (db : List SConversation) (cid : Nat) : Option SConversation :=
  db.find? (fun c => c.id == cid)

/-- Modelled from the spec: §6 — every endpoint is scoped to the caller
account; an unknown id and an id owned by another account both surface as
not-found, never as a permission error. -/
def getOwnedConversation (db : List SConversation) (callerAccount : Nat) (cid : Nat) :
    Except ApiError SConversation :=
  match findConversation db cid with
  | none => Except.error ApiError.notFound
  | some c =>
    if c.account_id == callerAccount then Except.ok c else Except.error ApiError.notFound

/-- Modelled from the spec: GET conversations/... — conversation detail. -/
def conversationDetailEndpoint (db : List SConversation) (callerAccount : Nat) (cid : Nat) :
    Except ApiError SConversation :=
  getOwnedConversation db callerAccount cid

/-- Modelled from the spec: GET conversations/.../messages. -/
def messagesEndpoint (db : List SConversation) (callerAccount : Nat) (cid : Nat) :
    Except ApiError (List SMessage) :=
  (getOwnedConversation db callerAccount cid).map (fun c => c.messages)

/-- Modelled from the spec: PATCH conversations/.../status. -/
def statusEndpoint (db : List SConversation) (callerAccount : Nat) (cid : Nat)
    (st : ConversationStatus) : Except ApiError SConversation :=
  (getOwnedConversation db callerAccount cid).map (fun c => { c with status := st })

/-- Modelled from the spec: POST conversations/.../read. -/
def markReadEndpoint (db : List SConversation) (callerAccount : Nat) (cid : Nat)
    (cursor : Option Int) : Except ApiError SConversation :=
  (getOwnedConversation db callerAccount cid).map (fun c => markRead c cursor)

/-- Claim C8: when a conversation id exists but belongs to another account,
every endpoint — detail, messages, status update, mark read — fails with
not-found, and not-found is distinct from the permission error of the
taxonomy, so the response never reveals existence. -/
theorem c8_cross_account_not_found (db : List SConversation) (callerAccount cid : Nat)
    (c : SConversation) (hfind : findConversation db cid = some c)
    (hacct : c.account_id ≠ callerAccount) (st : ConversationStatus) (cursor : Option Int) :
    conversationDetailEndpoint db callerAccount cid = Except.error ApiError.notFound ∧
    messagesEndpoint db callerAccount cid = Except.error ApiError.notFound ∧
    statusEndpoint db callerAccount cid st = Except.error ApiError.notFound ∧
    markReadEndpoint db callerAccount cid cursor = Except.error ApiError.notFound ∧
    ApiError.notFound ≠ ApiError.permissionDenied := by
  have howned : getOwnedConversation db callerAccount cid = Except.error ApiError.notFound := by
    unfold getOwnedConversation
    rw [hfind]
    simp [hacct]
  refine ⟨howned, ?_, ?_, ?_, by decide⟩
  · unfold messagesEndpoint
    rw [howned]
    rfl
  · unfold statusEndpoint
    rw [howned]
    rfl
  · unfold markReadEndpoint
    rw [howned]
    rfl

/-- Claim C8, witness: a caller on account 20 asking for conversation 1,
which exists and is owned by account 10, gets not-found from all four
endpoints. -/
theorem c8_witness :
    conversationDetailEndpoint
        [SConversation.mk 1 10 ConversationStatus.active 0 none none []] 20 1 =
      Except.error ApiError.notFound ∧
    markReadEndpoint
        [SConversation.mk 1 10 ConversationStatus.active 0 none none []] 20 1 none =
      Except.error ApiError.notFound :=
  ⟨(c8_cross_account_not_found
      [SConversation.mk 1 10 ConversationStatus.active 0 none none []] 20 1
      (SConversation.mk 1 10 ConversationStatus.active 0 none none [])
      (by decide) (by decide) ConversationStatus.active none).1,
   (c8_cross_account_not_found
      [SConversation.mk 1 10 ConversationStatus.active 0 none none []] 20 1
      (SConversation.mk 1 10 ConversationStatus.active 0 none none [])
      (by decide) (by decide) ConversationStatus.active none).2.2.2.1⟩

/-- Claim C1, witness: the amended statement at the concrete id `c1`. -/
theorem c1_witness :
    (markConversationAsReadRequest "c1").method = "POST" ∧
    ∀ b, (markConversationAsReadRequest "c1").body = some b → b.hasField "as_of" = false :=
  ⟨(c1_markRead_request_empty_body "c1").1,
   (c1_markRead_request_empty_body "c1").2.2.2⟩

/-- Claim C2, witness (Scenario C of the spec): with two inbound messages of
keys 1 and 2 and the cursor at key 1, markRead recomputes unread_count to 1
rather than resetting it to 0. -/
theorem c2_witness :
    (markRead
        (SConversation.mk 1 10 ConversationStatus.active 2 none none
          [SMessage.mk 100 (some "a") Direction.inbound "Hi" 1,
           SMessage.mk 101 (some "b") Direction.inbound "Still there?" 2])
        (some 1)).unread_count = 1 :=
  (c2_markRead_recomputes
      (SConversation.mk 1 10 ConversationStatus.active 2 none none
        [SMessage.mk 100 (some "a") Direction.inbound "Hi" 1,
         SMessage.mk 101 (some "b") Direction.inbound "Still there?" 2])
      (some 1)).trans (by decide)
